import Mathlib

/-!
Verification of the environmental-dashboard backend (`app.py`).

The development shallowly embeds the two layers of the program:

* the dataset loader and normalizer (module-level CSV load, column
  aliasing and column-presence defaulting, app.py lines 25-51), and
* the metrics/classification engine behind the HTTP query endpoints
  (`/api/overview`, `/api/stress-distribution`, `/api/pm25-green`,
  `/api/map`, `/api/wards`, `/api/insights`, `/api/faq`).

Numeric cell values are modelled as rationals (the Python floats enter the
claims only through comparisons, counting and exact arithmetic), and a
pandas KeyError on a missing column is modelled with `Except`.

Row ordering of `/api/wards` and label ordering of
`/api/stress-distribution` are produced in the source by
`DataFrame.sort_values` / `Series.sort_values` with the default
`kind="quicksort"`.  Both funnel into pandas `nargsort`, which calls
numpy's argsort with the introsort-based quicksort
(`npysort/quicksort.c.src`).  That algorithm is embedded faithfully below
(median-of-3 partition, `SMALL_QUICKSORT = 15` cutoff to a stable
insertion sort, explicit segment stack, heapsort fallback on depth
exhaustion), because the tie-breaking behaviour of the endpoints is
exactly the tie-breaking behaviour of this algorithm.
-/

namespace EnvDash

/-! ## Dataset loader and normalizer (app.py lines 25-51) -/

/-- A raw tabular dataset as read from the CSV: the column-name list and a
total cell-lookup function (row index, column name → value).  Cells of
columns not listed in `cols` are junk that the loader never exposes.  The
columns touched by the normalizer are numeric, so cells are rationals. -/
structure RawTable where
  cols : List String
  val : Nat → String → ℚ

/-- pandas column assignment `df[c] = ...`: a new column is appended to the
column list, an existing column keeps its position. -/
def addCol (cols : List String) (c : String) : List String :=
  if c ∈ cols then cols else cols ++ [c]

/-- app.py lines 31-32: `if 'latitude' in df.columns: df['lat'] = df['latitude']`.
The assignment is unconditional on whether a `lat` column already exists. -/
def aliasLat (T : RawTable) : RawTable :=
  if "latitude" ∈ T.cols then
    { cols := addCol T.cols "lat",
      val := fun i c => if c = "lat" then T.val i "latitude" else T.val i c }
  else T

/-- app.py lines 33-34: `if 'longitude' in df.columns: df['lon'] = df['longitude']`. -/
def aliasLon (T : RawTable) : RawTable :=
  if "longitude" ∈ T.cols then
    { cols := addCol T.cols "lon",
      val := fun i c => if c = "lon" then T.val i "longitude" else T.val i c }
  else T

/-- app.py lines 37-39: `if 'population' not in df.columns: df['population'] = 50000`. -/
def defaultPopulation (T : RawTable) : RawTable :=
  if "population" ∈ T.cols then T
  else
    { cols := addCol T.cols "population",
      val := fun i c => if c = "population" then 50000 else T.val i c }

/-- app.py lines 41-43: `if 'total_budget' not in df.columns: df['total_budget'] = 100000000`. -/
def defaultBudget (T : RawTable) : RawTable :=
  if "total_budget" ∈ T.cols then T
  else
    { cols := addCol T.cols "total_budget",
      val := fun i c => if c = "total_budget" then 100000000 else T.val i c }

/-- The whole normalization pass run on a successfully parsed CSV
(app.py lines 31-43, in source order). -/
def loadNorm (T : RawTable) : RawTable :=
  defaultBudget (defaultPopulation (aliasLon (aliasLat T)))

/-! ## numpy argsort, kind="quicksort" (npysort/quicksort.c.src)

The engine sorts through pandas `nargsort`, which runs numpy's
`aquicksort` on an index buffer.  The buffer is a `List Nat`; `v` maps an
index to the value it carries.  C loops become fueled recursion; the fuel
bounds are generous enough that they are never the reason a run stops. -/

/-- `INTP_SWAP` of two positions of the index buffer. -/
def lswap (t : List Nat) (i j : Nat) : List Nat :=
  (t.set i (t.getD j 0)).set j (t.getD i 0)

/-- Inner step of the argsort insertion loop, with the already-sorted
prefix stored in reverse (head = right end): the new index `i` is shifted
left past every index holding a strictly greater value
(`while (pj > pl && TYPE_LT(vp, v[*pk])) *pj-- = *pk--;`),
then dropped in place.  Equal values stop the scan, so `i` lands after
them: the insertion is stable. -/
def insRev (v : Nat → ℚ) (i : Nat) : List Nat → List Nat
  | [] => [i]
  | k :: rest => if v i < v k then k :: insRev v i rest else i :: k :: rest

/-- numpy's argsort insertion sort of an index list: stable, ascending by
value.  This is the whole sort for segments of at most
`SMALL_QUICKSORT + 1 = 16` elements. -/
def ainsertion (v : Nat → ℚ) (l : List Nat) : List Nat :=
  (l.foldl (fun acc i => insRev v i acc) []).reverse

/-- The insertion-sort tail of `aquicksort`, applied to the segment
`[pl, pr]` of the index buffer (the C loop reads and writes only inside
the segment). -/
def sortSeg (v : Nat → ℚ) (t : List Nat) (pl pr : Nat) : List Nat :=
  t.take pl ++ ainsertion v ((t.drop pl).take (pr + 1 - pl)) ++ t.drop (pr + 1)

/-- `do ++pi; while (TYPE_LT(v[*pi], vp))` — returns the final `pi`. -/
def scanUp (v : Nat → ℚ) (t : List Nat) (vp : ℚ) : Nat → Nat → Nat
  | 0, pi => pi + 1
  | fuel+1, pi =>
    if v (t.getD (pi + 1) 0) < vp then scanUp v t vp fuel (pi + 1) else pi + 1

/-- `do --pj; while (TYPE_LT(vp, v[*pj]))` — returns the final `pj`. -/
def scanDown (v : Nat → ℚ) (t : List Nat) (vp : ℚ) : Nat → Nat → Nat
  | 0, pj => pj - 1
  | fuel+1, pj =>
    if vp < v (t.getD (pj - 1) 0) then scanDown v t vp fuel (pj - 1) else pj - 1

/-- The Hoare partition scan of `aquicksort`: advance `pi` and retreat
`pj`, swap while they have not crossed.  Returns the buffer and the final
`pi`. -/
def partScan (v : Nat → ℚ) (vp : ℚ) : Nat → List Nat → Nat → Nat → List Nat × Nat
  | 0, t, pi, _ => (t, pi)
  | fuel+1, t, pi, pj =>
    let pi' := scanUp v t vp fuel pi
    let pj' := scanDown v t vp fuel pj
    if pj' ≤ pi' then (t, pi')
    else partScan v vp fuel (lswap t pi' pj') pi' pj'

/-- 1-based read inside the heapsort segment (`a = tosort - 1` in C). -/
def hGet (t : List Nat) (pl j : Nat) : Nat := t.getD (pl + j - 1) 0

/-- 1-based write inside the heapsort segment. -/
def hSet (t : List Nat) (pl j x : Nat) : List Nat := t.set (pl + j - 1) x

/-- The sift-down loop shared by both phases of numpy's `aheapsort`. -/
def siftDown (v : Nat → ℚ) (pl : Nat) (tmp : Nat) (endn : Nat) :
    Nat → List Nat → Nat → Nat → List Nat × Nat
  | 0, t, i, _ => (t, i)
  | fuel+1, t, i, j =>
    if j ≤ endn then
      let j' := if j < endn ∧ v (hGet t pl j) < v (hGet t pl (j + 1)) then j + 1 else j
      if v tmp < v (hGet t pl j') then
        siftDown v pl tmp endn fuel (hSet t pl i (hGet t pl j')) j' (2 * j')
      else (t, i)
    else (t, i)

/-- Heap construction phase: `for (l = n >> 1; l > 0; --l)`. -/
def heapBuild (v : Nat → ℚ) (pl endn : Nat) : Nat → List Nat → Nat → List Nat
  | 0, t, _ => t
  | fuel+1, t, l =>
    if l = 0 then t
    else
      let tmp := hGet t pl l
      let s := siftDown v pl tmp endn (endn + 2) t l (2 * l)
      heapBuild v pl endn fuel (hSet s.1 pl s.2 tmp) (l - 1)

/-- Extraction phase: `for (; n > 1;)`. -/
def heapExtract (v : Nat → ℚ) (pl : Nat) : Nat → List Nat → Nat → List Nat
  | 0, t, _ => t
  | fuel+1, t, m =>
    if m ≤ 1 then t
    else
      let tmp := hGet t pl m
      let t1 := hSet t pl m (hGet t pl 1)
      let s := siftDown v pl tmp (m - 1) (m + 2) t1 1 2
      heapExtract v pl fuel (hSet s.1 pl s.2 tmp) (m - 1)

/-- numpy `aheapsort` on the segment `[pl, pr]` — the introsort fallback
when the partition depth budget is exhausted (unreachable for every input
appearing in the theorems below, but part of the algorithm). -/
def heapSeg (v : Nat → ℚ) (t : List Nat) (pl pr : Nat) : List Nat :=
  let n := pr + 1 - pl
  heapExtract v pl (n + 1) (heapBuild v pl n (n + 1) t (n / 2)) n

/-- The driver loop of numpy `aquicksort`: as long as the current segment
has more than `SMALL_QUICKSORT = 15` elements, check the depth budget
(heapsort and pop when exhausted), otherwise median-of-3 partition, push
the larger half and continue on the smaller; small segments are
insertion-sorted and the next segment is popped. -/
def qsLoop (v : Nat → ℚ) : Nat → List (Nat × Nat) → List Nat → Nat → Nat → Int → List Nat
  | 0, _, t, _, _, _ => t
  | fuel+1, stack, t, pl, pr, depth =>
    if 15 < pr - pl then
      if depth < 0 then
        let t' := heapSeg v t pl pr
        match stack with
        | [] => t'
        | (pl', pr') :: st => qsLoop v fuel st t' pl' pr' (depth - 1)
      else
        let pm := pl + (pr - pl) / 2
        let t1 := if v (t.getD pm 0) < v (t.getD pl 0) then lswap t pm pl else t
        let t2 := if v (t1.getD pr 0) < v (t1.getD pm 0) then lswap t1 pr pm else t1
        let t3 := if v (t2.getD pm 0) < v (t2.getD pl 0) then lswap t2 pm pl else t2
        let vp := v (t3.getD pm 0)
        let t4 := lswap t3 pm (pr - 1)
        let s := partScan v vp (t4.length + 2) t4 pl (pr - 1)
        let pi := s.2
        let t5 := lswap s.1 pi (pr - 1)
        if pi - pl < pr - pi then
          qsLoop v fuel ((pi + 1, pr) :: stack) t5 pl (pi - 1) (depth - 1)
        else
          qsLoop v fuel ((pl, pi - 1) :: stack) t5 (pi + 1) pr (depth - 1)
    else
      let t' := sortSeg v t pl pr
      match stack with
      | [] => t'
      | (pl', pr') :: st => qsLoop v fuel st t' pl' pr' depth

/-- numpy argsort with `kind="quicksort"` over the index buffer
`[0, ..., n-1]`, comparing indices through `v`; ascending.  The depth
budget is `2 * msb(n)` as in the C source. -/
def aquicksortArg (v : Nat → ℚ) (n : Nat) : List Nat :=
  if n = 0 then []
  else qsLoop v ((n + 2) * (n + 2)) [] (List.range n) 0 (n - 1) (2 * (Nat.log2 n : Int))

/-- pandas `nargsort(values, kind="quicksort", ascending=False)` with no
NaNs present: reverse the values and the index array, run numpy's
ascending argsort, read the result through the reversed index array, and
reverse it. -/
def nargsortDesc (vs : List ℚ) : List Nat :=
  ((aquicksortArg (fun k => vs.reverse.getD k 0) vs.length).map
    (fun k => vs.length - 1 - k)).reverse

/-- Spec-side order: `i` precedes `j` in a stable descending sort by value
when `i` carries the strictly greater value, or the values tie and `i` is
the earlier original position. -/
def stableDescRel (vs : List ℚ) (i j : Nat) : Prop :=
  vs.getD j 0 < vs.getD i 0 ∨ (vs.getD i 0 = vs.getD j 0 ∧ i ≤ j)

instance (vs : List ℚ) : DecidableRel (stableDescRel vs) := fun i j =>
  inferInstanceAs (Decidable (vs.getD j 0 < vs.getD i 0 ∨ (vs.getD i 0 = vs.getD j 0 ∧ i ≤ j)))

/-- Modelled from the spec: "sorted by `esi` descending (ties: stable,
preserve original relative order)" — the stable descending sort of the row
indices, written with Mathlib's stable `insertionSort`.  Kept separate
from the source-side `nargsortDesc` so the two can be compared. -/
def stableDescSortSpec (vs : List ℚ) : List Nat :=
  List.insertionSort (stableDescRel vs) (List.range vs.length)

instance (vs : List ℚ) : IsTrans Nat (stableDescRel vs) := by
  constructor
  intro a b c hab hbc
  rcases hab with h1 | ⟨h1, h1'⟩ <;> rcases hbc with h2 | ⟨h2, h2'⟩
  · exact Or.inl (h2.trans h1)
  · exact Or.inl (h2 ▸ h1)
  · exact Or.inl (h1 ▸ h2)
  · exact Or.inr ⟨h1.trans h2, h1'.trans h2'⟩

instance (vs : List ℚ) : IsTotal Nat (stableDescRel vs) := by
  constructor
  intro a b
  rcases lt_trichotomy (vs.getD a 0) (vs.getD b 0) with h | h | h
  · exact Or.inr (Or.inl h)
  · rcases Nat.le_total a b with hab | hab
    · exact Or.inl (Or.inr ⟨h, hab⟩)
    · exact Or.inr (Or.inr ⟨h.symm, hab⟩)
  · exact Or.inl (Or.inl h)

instance (vs : List ℚ) : IsAntisymm Nat (stableDescRel vs) := by
  constructor
  intro a b hab hba
  rcases hab with h1 | ⟨h1, h1'⟩ <;> rcases hba with h2 | ⟨h2, h2'⟩
  · exact absurd (h1.trans h2) (lt_irrefl _)
  · exact absurd h1 (h2 ▸ lt_irrefl _)
  · exact absurd h2 (h1 ▸ lt_irrefl _)
  · exact Nat.le_antisymm h1' h2'

/-- Ascending counterpart of `stableDescRel`: smaller value first, ties in
index order. -/
def stAscRel (v : Nat → ℚ) (i j : Nat) : Prop :=
  v i < v j ∨ (v i = v j ∧ i < j)

/-! ## Metrics and classification engine (app.py lines 61-418)

`DFrame` models the module-level `df` after a successful load: `cols`
tracks which columns exist (an access to a column outside `cols` is a
pandas `KeyError`, modelled with `Except.error`), `rows` carries the cell
values of each row.  `Option DFrame` models the global: `none` is the
`df = None` failure sentinel.  String formatting of response payloads
(f-strings, HTML) is presentation and is not modelled; the numbers and
strings that feed it are. -/

structure Row where
  ward : String
  lat : ℚ
  lon : ℚ
  pm25 : ℚ
  heat : ℚ
  green_cover : ℚ
  pop_density : ℚ
  esi : ℚ
  stress_zone : String
  population : ℚ
  total_budget : ℚ
deriving DecidableEq

/-- Junk row read through `List.getD` at an out-of-range index (never
reached: the sort indices are a permutation of the row indices). -/
def defRow : Row :=
  { ward := "", lat := 0, lon := 0, pm25 := 0, heat := 0, green_cover := 0,
    pop_density := 0, esi := 0, stress_zone := "", population := 0, total_budget := 0 }

structure DFrame where
  cols : List String
  rows : List Row
deriving DecidableEq

instance {ε α : Type} [DecidableEq ε] [DecidableEq α] : DecidableEq (Except ε α)
  | .error a, .error b =>
    decidable_of_iff (a = b) (by rw [Except.error.injEq])
  | .error _, .ok _ => isFalse (by intro h; cases h)
  | .ok _, .error _ => isFalse (by intro h; cases h)
  | .ok a, .ok b =>
    decidable_of_iff (a = b) (by rw [Except.ok.injEq])

/-- `Series.mean()`: the mean of a column.  pandas yields NaN on an empty
column, which flows through `round`/`jsonify` without raising; the NaN is
modelled as 0 (no claim depends on the value). -/
def meanQ (l : List ℚ) : ℚ :=
  if l.length = 0 then 0 else l.sum / l.length

/-- Python `round(x, 1)` on rationals.  (Python rounds ties to even on
floats; exact ties do not occur in any statement below.) -/
def round1 (q : ℚ) : ℚ := (round (q * 10) : ℤ) / 10

/-- Python `round(x, 3)` on rationals. -/
def round3 (q : ℚ) : ℚ := (round (q * 1000) : ℤ) / 1000

/-! ### GET /api/overview (lines 61-93) -/

structure OverviewData where
  total_wards : Nat
  high_stress_count : Nat
  medium_stress_count : Nat
  low_stress_count : Nat
  avg_pm25 : ℚ
  avg_esi : ℚ
deriving DecidableEq

inductive OverviewBody where
  | data (d : OverviewData)
  | err (msg : String)
deriving DecidableEq

/-- The `try` block of `get_overview` (lines 74-89); a missing column is
the pandas KeyError the `except` catches. -/
def overviewCompute (df : DFrame) : Except String OverviewData :=
  if "stress_zone" ∈ df.cols then
    if "pm25" ∈ df.cols then
      if "esi" ∈ df.cols then
        .ok
          { total_wards := df.rows.length
            high_stress_count :=
              (df.rows.filter (fun r => r.stress_zone = "High Stress")).length
            medium_stress_count :=
              (df.rows.filter (fun r => r.stress_zone = "Medium Stress")).length
            low_stress_count :=
              (df.rows.filter (fun r => r.stress_zone = "Low Stress")).length
            avg_pm25 := round1 (meanQ (df.rows.map (fun r => r.pm25)))
            avg_esi := round3 (meanQ (df.rows.map (fun r => r.esi))) }
      else .error "KeyError: esi"
    else .error "KeyError: pm25"
  else .error "KeyError: stress_zone"

/-- `get_overview` as (status, body): `df is None` gives the all-zero
payload with 200; a caught exception gives `{'error': ...}` with 500. -/
def overviewResp : Option DFrame → Nat × OverviewBody
  | none => (200, .data ⟨0, 0, 0, 0, 0, 0⟩)
  | some df =>
    match overviewCompute df with
    | .ok d => (200, .data d)
    | .error e => (500, .err e)

/-! ### GET /api/stress-distribution (lines 95-118) -/

/-- First-seen enumeration of the distinct `stress_zone` values.  The
order in which pandas' hash table hands the distinct keys to the sort is
an implementation detail (hash-bucket order); theorems about the sorted
output are stated for an arbitrary enumeration, and this canonical one is
used to build concrete responses. -/
def firstSeen (l : List String) : List String :=
  l.foldl (fun acc z => if z ∈ acc then acc else acc ++ [z]) []

/-- The (distinct value, count) pairs in a given enumeration order. -/
def countsFor (df : DFrame) (keyOrder : List String) : List (String × Nat) :=
  keyOrder.map (fun z => (z, (df.rows.filter (fun r => r.stress_zone = z)).length))

/-- `df['stress_zone'].value_counts()`: count each distinct value, then
sort by count descending with `Series.sort_values` (default
`kind="quicksort"`, i.e. `nargsortDesc`). -/
def valueCountsP (df : DFrame) (keyOrder : List String) : List (String × Nat) :=
  let pairs := countsFor df keyOrder
  (nargsortDesc (pairs.map (fun p => (p.2 : ℚ)))).map (fun i => pairs.getD i ("", 0))

/-- The fixed positional color list of the pie trace (line 108). -/
def pieColors : List String := ["#e74c3c", "#f39c12", "#2ecc71"]

/-- The `try` block of `stress_distribution` (lines 101-114): the pie
figure's labels, values and marker colors. -/
def stressCompute (df : DFrame) (keyOrder : List String) :
    Except String (List String × List Nat × List String) :=
  if "stress_zone" ∈ df.cols then
    let pairs := valueCountsP df keyOrder
    .ok (pairs.map (fun p => p.1), pairs.map (fun p => p.2), pieColors)
  else .error "KeyError: stress_zone"

inductive StressBody where
  | fig (labels : List String) (values : List Nat) (colors : List String)
  | emptyFig
  | err (msg : String)
deriving DecidableEq

def stressResp : Option DFrame → Nat × StressBody
  | none => (200, .emptyFig)
  | some df =>
    match stressCompute df (firstSeen (df.rows.map (fun r => r.stress_zone))) with
    | .ok (ls, vs, cs) => (200, .fig ls vs cs)
    | .error e => (500, .err e)

/-! ### GET /api/pm25-green (lines 120-154) -/

/-- The zone iteration order of the scatter loop (line 130). -/
def scatterZones : List String := ["Low Stress", "Medium Stress", "High Stress"]

structure SeriesT where
  name : String
  points : List (ℚ × ℚ × String)
deriving DecidableEq

/-- The trace-building loop (lines 130-141): a zone with no matching rows
adds no trace; a nonempty zone reads `green_cover`, `pm25` and `ward`
(raising on a missing column) and appends its trace. -/
def buildSeries (df : DFrame) : List String → Except String (List SeriesT)
  | [] => .ok []
  | z :: zs =>
    if (df.rows.filter (fun r => r.stress_zone = z)).isEmpty then buildSeries df zs
    else
      if "green_cover" ∈ df.cols then
        if "pm25" ∈ df.cols then
          if "ward" ∈ df.cols then
            match buildSeries df zs with
            | .ok rest =>
              .ok ({ name := z,
                     points := (df.rows.filter (fun r => r.stress_zone = z)).map
                       (fun r => (r.green_cover * 100, r.pm25, r.ward)) } :: rest)
            | .error e => .error e
          else .error "KeyError: ward"
        else .error "KeyError: pm25"
      else .error "KeyError: green_cover"

def pm25Compute (df : DFrame) : Except String (List SeriesT) :=
  if "stress_zone" ∈ df.cols then buildSeries df scatterZones
  else .error "KeyError: stress_zone"

inductive Pm25Body where
  | fig (series : List SeriesT)
  | emptyFig
  | err (msg : String)
deriving DecidableEq

def pm25Resp : Option DFrame → Nat × Pm25Body
  | none => (200, .emptyFig)
  | some df =>
    match pm25Compute df with
    | .ok ls => (200, .fig ls)
    | .error e => (500, .err e)

/-! ### GET /api/map (lines 160-309) -/

/-- `colors.get(stress, '#999')` (lines 167, 179). -/
def zoneColor (z : String) : String :=
  if z = "High Stress" then "#e74c3c"
  else if z = "Medium Stress" then "#f39c12"
  else if z = "Low Stress" then "#2ecc71"
  else "#999"

structure Marker where
  lat : ℚ
  lon : ℚ
  radius : ℚ
  color : String
  ward : String
deriving DecidableEq

/-- One circle marker (lines 177-263): the radius is
`max(8, min(25, 5 + esi * 20))` (line 182). -/
def markerOf (r : Row) : Marker :=
  { lat := r.lat, lon := r.lon,
    radius := max 8 (min 25 (5 + r.esi * 20)),
    color := zoneColor r.stress_zone, ward := r.ward }

/-- The `try` block of `get_map`: the loop body reads columns of each row
(`row['stress_zone']`, `row['esi']`, `row['ward']`, `row['lat']`,
`row['lon']`, `row['pm25']`, `row['heat']`, `row['green_cover']`,
`row['pop_density']` — `population`/`total_budget` go through `.get` with
a default and cannot raise), so a missing column raises only when there is
at least one row. -/
def mapCompute (df : DFrame) : Except String (List Marker) :=
  if df.rows.isEmpty then .ok []
  else
    if "stress_zone" ∈ df.cols then
      if "esi" ∈ df.cols then
        if "ward" ∈ df.cols then
          if "lat" ∈ df.cols then
            if "lon" ∈ df.cols then
              if "pm25" ∈ df.cols then
                if "heat" ∈ df.cols then
                  if "green_cover" ∈ df.cols then
                    if "pop_density" ∈ df.cols then
                      .ok (df.rows.map markerOf)
                    else .error "KeyError: pop_density"
                  else .error "KeyError: green_cover"
                else .error "KeyError: heat"
              else .error "KeyError: pm25"
            else .error "KeyError: lon"
          else .error "KeyError: lat"
        else .error "KeyError: ward"
      else .error "KeyError: esi"
    else .error "KeyError: stress_zone"

inductive MapBody where
  | html (markers : List Marker)
  | errorDiv (msg : String)
deriving DecidableEq

/-- `get_map` returns 200 in all three paths (lines 164, 303, 309). -/
def mapResp : Option DFrame → Nat × MapBody
  | none => (200, .errorDiv "Error: No data")
  | some df =>
    match mapCompute df with
    | .ok ms => (200, .html ms)
    | .error e => (200, .errorDiv ("Error: " ++ e))

/-! ### GET /api/wards (lines 311-323) -/

structure WardOut where
  ward : String
  pm25 : ℚ
  heat : ℚ
  pop_density : ℚ
  green_cover : ℚ
  esi : ℚ
  stress_zone : String
deriving DecidableEq

def projWard (r : Row) : WardOut :=
  { ward := r.ward, pm25 := r.pm25, heat := r.heat, pop_density := r.pop_density,
    green_cover := r.green_cover, esi := r.esi, stress_zone := r.stress_zone }

/-- The `try` block of `get_wards`: select the seven columns (KeyError on a
missing one), then `sort_values('esi', ascending=False)` — pandas
`nargsort` with the default quicksort. -/
def wardsCompute (df : DFrame) : Except String (List WardOut) :=
  if "ward" ∈ df.cols then
    if "pm25" ∈ df.cols then
      if "heat" ∈ df.cols then
        if "pop_density" ∈ df.cols then
          if "green_cover" ∈ df.cols then
            if "esi" ∈ df.cols then
              if "stress_zone" ∈ df.cols then
                .ok ((nargsortDesc (df.rows.map (fun r => r.esi))).map
                  (fun i => projWard (df.rows.getD i defRow)))
              else .error "KeyError: stress_zone"
            else .error "KeyError: esi"
          else .error "KeyError: green_cover"
        else .error "KeyError: pop_density"
      else .error "KeyError: heat"
    else .error "KeyError: pm25"
  else .error "KeyError: ward"

/-- `get_wards` answers 200 on every path (line 315, 320, 323). -/
def wardsResp : Option DFrame → Nat × List WardOut
  | none => (200, [])
  | some df =>
    match wardsCompute df with
    | .ok l => (200, l)
    | .error _ => (200, [])

/-! ### GET /api/insights (lines 325-391) -/

/-- One insight card.  `ctype`/`icon`/`title` are the literal strings of
the source; `tag` is the ward name interpolated into the text (empty when
the card has none); `v1`/`v2` are the numbers interpolated into the `text`
and `action` f-strings. -/
structure Card where
  ctype : String
  icon : String
  title : String
  tag : String
  v1 : ℚ
  v2 : ℚ
deriving DecidableEq

/-- `df['pm25'].idxmax()` then `df.loc[...]`: the first row attaining the
maximum `pm25` (`idxmax` returns the first occurrence). -/
def firstMaxPm25 (rows : List Row) : Row :=
  match rows with
  | [] => defRow
  | r :: rs => rs.foldl (fun best x => if best.pm25 < x.pm25 then x else best) r

/-- The `try` block of `get_insights` (lines 331-387).  With no rows the
very first card divides `critical/total` by zero (`ZeroDivisionError`);
`population`/`total_budget` are presence-checked in the source and cannot
raise. -/
def insightsCompute (df : DFrame) : Except String (List Card) :=
  if "stress_zone" ∈ df.cols then
    let critical := (df.rows.filter (fun r => r.stress_zone = "High Stress")).length
    let total := df.rows.length
    if total = 0 then .error "ZeroDivisionError: division by zero"
    else
      if "pm25" ∈ df.cols then
        if "green_cover" ∈ df.cols then
          let worst := firstMaxPm25 df.rows
          let avg_pm25 := meanQ (df.rows.map (fun r => r.pm25))
          let pct_above := if 0 < avg_pm25 then (worst.pm25 / avg_pm25 - 1) * 100 else 0
          let avg_green := meanQ (df.rows.map (fun r => r.green_cover))
          let gap := ((25 : ℚ) / 100 - avg_green) * 100
          let critical_pop :=
            if "population" ∈ df.cols then
              (((df.rows.filter (fun r => r.stress_zone = "High Stress")).map
                (fun r => r.population)).sum)
            else 0
          let high_budget :=
            if "total_budget" ∈ df.cols then
              (((df.rows.filter (fun r => r.stress_zone = "High Stress")).map
                (fun r => r.total_budget)).sum)
            else 0
          let total_budget :=
            if "total_budget" ∈ df.cols then ((df.rows.map (fun r => r.total_budget)).sum)
            else 1
          let pct_budget := if 0 < total_budget then high_budget / total_budget * 100 else 0
          .ok
            [ { ctype := "critical", icon := "🚨", title := "Critical Zones",
                tag := "", v1 := critical, v2 := (critical : ℚ) / total * 100 },
              { ctype := "pollution", icon := "💨", title := "Pollution Hotspot",
                tag := worst.ward, v1 := worst.pm25, v2 := pct_above },
              { ctype := "green", icon := "🌳", title := "Green Cover Gap",
                tag := "", v1 := avg_green * 100, v2 := gap },
              { ctype := "population", icon := "👥", title := "Population at Risk",
                tag := "", v1 := critical_pop / 1000000, v2 := 0 },
              { ctype := "budget", icon := "💰", title := "Budget Strategy",
                tag := "", v1 := high_budget / 10000000, v2 := pct_budget } ]
        else .error "KeyError: green_cover"
      else .error "KeyError: pm25"
  else .error "KeyError: stress_zone"

/-- `get_insights` answers 200 on every path (lines 329, 387, 391). -/
def insightsResp : Option DFrame → Nat × List Card
  | none => (200, [])
  | some df =>
    match insightsCompute df with
    | .ok l => (200, l)
    | .error _ => (200, [])

/-! ### GET /api/faq (lines 393-418) -/

/-- The static FAQ payload: always 200, five fixed question/answer pairs. -/
def faqResp : Nat × List (String × String) :=
  (200,
    [ ("What does \"High Stress\" mean?",
       "High Stress wards have ESI > 0.65, indicating environmental challenges requiring immediate intervention."),
      ("How is ESI calculated?",
       "Environmental Stress Index = 40% PM2.5 + 20% Heat + 25% Density + 15% Green Deficit"),
      ("Which wards need priority?",
       "High Stress wards with high population density should get priority."),
      ("How can ESI be reduced?",
       "1) Plant trees (green cover) → 25-30% reduction\n2) Reduce emissions → 15-20% reduction\n3) Improve monitoring"),
      ("What is PM2.5?",
       "Particulate matter < 2.5µm. WHO safe limit: 15 µg/m³. High PM2.5 causes respiratory problems.") ])

/-! ### Failure predicates for the status theorem -/

def overviewFails : Option DFrame → Bool
  | none => false
  | some df => match overviewCompute df with | .ok _ => false | .error _ => true

def stressFails : Option DFrame → Bool
  | none => false
  | some df =>
    match stressCompute df (firstSeen (df.rows.map (fun r => r.stress_zone))) with
    | .ok _ => false
    | .error _ => true

def pm25Fails : Option DFrame → Bool
  | none => false
  | some df => match pm25Compute df with | .ok _ => false | .error _ => true

/-- Zero record used as the `okD` default when reading overview payloads. -/
def defOv : OverviewData := ⟨0, 0, 0, 0, 0, 0⟩

/-- Modelled from the spec: "`ward_table` ... sorted by `esi` descending
(ties: stable, preserve original relative order — source uses a stable
sort)" — the spec-side ward table, built with the stable sort, kept
separate from the source-side `wardsCompute` so the two can be compared. -/
def wardTableSpecOf (df : DFrame) : List WardOut :=
  (stableDescSortSpec (df.rows.map (fun r => r.esi))).map
    (fun i => projWard (df.rows.getD i defRow))

/-- `okD e d` reads the payload of a successful `Except`, with a default. -/
def okD {ε α : Type} (e : Except ε α) (d : α) : α :=
  match e with
  | .ok a => a
  | .error _ => d

/-! ## Concrete datasets used by counterexamples and witnesses -/

def allCols : List String :=
  ["ward", "lat", "lon", "pm25", "heat", "green_cover", "pop_density", "esi",
   "stress_zone", "population", "total_budget"]

def mkRow (w : String) (esiv : ℚ) (zone : String) (pm : ℚ) : Row :=
  { ward := w, lat := 18, lon := 73, pm25 := pm, heat := 30, green_cover := 1,
    pop_density := 1000, esi := esiv, stress_zone := zone, population := 50000,
    total_budget := 100000000 }

/-- 17 rows with equal `esi` (above the 16-element insertion-sort cutoff),
distinguished by `pm25`. -/
def df17 : DFrame :=
  { cols := allCols, rows := (List.range 17).map (fun i => mkRow "w" 1 "High Stress" i) }

/-- A loaded frame whose column set lacks most engine columns (a CSV with
the wrong header): any access to `stress_zone` raises. -/
def dfMissing : DFrame :=
  { cols := ["ward", "pm25", "esi"], rows := [mkRow "a" 1 "Low Stress" 1] }

/-- One row with an unrecognized `stress_zone` value. -/
def dfUnknown : DFrame :=
  { cols := allCols, rows := [mkRow "a" 1 "Industrial" 1] }

/-- Zones Low, High, High: "Low Stress" is seen first but has the smaller
count. -/
def dfC4 : DFrame :=
  { cols := allCols,
    rows := [mkRow "a" 1 "Low Stress" 1, mkRow "b" 1 "High Stress" 2,
             mkRow "c" 1 "High Stress" 3] }

/-- Zones Low, Low, High: "Low Stress" has the top count. -/
def dfC5 : DFrame :=
  { cols := allCols,
    rows := [mkRow "a" 1 "Low Stress" 1, mkRow "b" 1 "Low Stress" 2,
             mkRow "c" 1 "High Stress" 3] }

/-- The spec's own two-ward scenario (§8). -/
def dfIns : DFrame :=
  { cols := allCols,
    rows := [mkRow "a" (7/10) "High Stress" 50, mkRow "b" (3/10) "Low Stress" 10] }

/-- Three rows with an `esi` tie between the first and third. -/
def dfW3 : DFrame :=
  { cols := allCols,
    rows := [mkRow "a" 1 "Low Stress" 1, mkRow "b" 2 "High Stress" 2,
             mkRow "c" 1 "Low Stress" 3] }

/-- One ward with `esi = 5`, far outside `[0, 1]`. -/
def dfEsi5 : DFrame :=
  { cols := allCols, rows := [mkRow "big" 5 "High Stress" 10] }

/-- A known-zone row next to an unknown-zone row. -/
def dfMixed : DFrame :=
  { cols := allCols,
    rows := [mkRow "a" 1 "Low Stress" 1, mkRow "b" 1 "Industrial" 2] }

/-- Raw CSV with both a `lat` and a `latitude` column, holding different
values. -/
def rawBoth : RawTable :=
  { cols := ["lat", "latitude"], val := fun _ c => if c = "latitude" then 2 else 1 }

def rawLatOnly : RawTable := { cols := ["latitude"], val := fun _ _ => 3 }

def rawNoLatitude : RawTable := { cols := ["lat"], val := fun _ _ => 4 }

def rawPopAbsent : RawTable := { cols := ["ward"], val := fun _ _ => 7 }

def rawPopPresent : RawTable :=
  { cols := ["population", "total_budget"],
    val := fun _ c => if c = "population" then 7 else 9 }

/-! ## Lemmas: the insertion path of the quicksort -/

theorem stAscRel_trans (v : Nat → ℚ) {a b c : Nat}
    (h1 : stAscRel v a b) (h2 : stAscRel v b c) : stAscRel v a c := by
  rcases h1 with h1 | ⟨h1, h1'⟩ <;> rcases h2 with h2 | ⟨h2, h2'⟩
  · exact Or.inl (h1.trans h2)
  · exact Or.inl (h2 ▸ h1)
  · exact Or.inl (h1 ▸ h2)
  · exact Or.inr ⟨h1.trans h2, h1'.trans h2'⟩

theorem insRev_perm (v : Nat → ℚ) (i : Nat) :
    ∀ acc : List Nat, List.Perm (insRev v i acc) (i :: acc)
  | [] => by simp [insRev]
  | k :: rest => by
    unfold insRev
    split
    · exact ((insRev_perm v i rest).cons k).trans (List.Perm.swap i k rest)
    · exact List.Perm.refl _

theorem foldl_insRev_perm (v : Nat → ℚ) :
    ∀ (l acc : List Nat),
      List.Perm (l.foldl (fun a i => insRev v i a) acc) (acc ++ l)
  | [], acc => by simp
  | x :: xs, acc => by
    simp only [List.foldl_cons]
    refine (foldl_insRev_perm v xs (insRev v x acc)).trans ?_
    refine ((insRev_perm v x acc).append_right xs).trans ?_
    exact List.perm_middle.symm

theorem ainsertion_perm (v : Nat → ℚ) (l : List Nat) :
    List.Perm (ainsertion v l) l := by
  unfold ainsertion
  refine (List.reverse_perm _).trans ?_
  simpa using foldl_insRev_perm v l []

theorem insRev_pairwise (v : Nat → ℚ) (i : Nat) :
    ∀ acc : List Nat,
      acc.Pairwise (fun a b => stAscRel v b a) → (∀ k ∈ acc, k < i) →
      (insRev v i acc).Pairwise (fun a b => stAscRel v b a)
  | [], _, _ => by simp [insRev]
  | k :: rest, hp0, hlt => by
    have hp := List.pairwise_cons.mp hp0
    unfold insRev
    split
    case isTrue hik =>
      rw [List.pairwise_cons]
      refine ⟨?_, insRev_pairwise v i rest hp.2
        (fun m hm => hlt m (List.mem_cons_of_mem _ hm))⟩
      intro m hm
      rcases List.mem_cons.mp ((insRev_perm v i rest).mem_iff.mp hm) with rfl | hm'
      · exact Or.inl hik
      · exact hp.1 m hm'
    case isFalse hik =>
      have hki : stAscRel v k i := by
        rcases lt_trichotomy (v k) (v i) with h | h | h
        · exact Or.inl h
        · exact Or.inr ⟨h, hlt k (List.mem_cons_self k rest)⟩
        · exact absurd h hik
      rw [List.pairwise_cons]
      constructor
      · intro m hm
        rcases List.mem_cons.mp hm with rfl | hm'
        · exact hki
        · exact stAscRel_trans v (hp.1 m hm') hki
      · exact hp0

theorem foldl_insRev_pairwise (v : Nat → ℚ) :
    ∀ (l acc : List Nat),
      acc.Pairwise (fun a b => stAscRel v b a) →
      (∀ k ∈ acc, ∀ x ∈ l, k < x) → l.Pairwise (· < ·) →
      (l.foldl (fun a i => insRev v i a) acc).Pairwise (fun a b => stAscRel v b a)
  | [], _, hacc, _, _ => hacc
  | x :: xs, acc, hacc, hcross, hl0 => by
    have hl := List.pairwise_cons.mp hl0
    simp only [List.foldl_cons]
    apply foldl_insRev_pairwise v xs (insRev v x acc)
    · exact insRev_pairwise v x acc hacc
        (fun k hk => hcross k hk x (List.mem_cons_self _ _))
    · intro k hk y hy
      rcases List.mem_cons.mp ((insRev_perm v x acc).mem_iff.mp hk) with rfl | hk'
      · exact hl.1 y hy
      · exact hcross k hk' y (List.mem_cons_of_mem _ hy)
    · exact hl.2

theorem ainsertion_pairwise (v : Nat → ℚ) (l : List Nat)
    (hl : l.Pairwise (· < ·)) : (ainsertion v l).Pairwise (stAscRel v) := by
  unfold ainsertion
  rw [List.pairwise_reverse]
  exact foldl_insRev_pairwise v l [] (by simp) (by simp) hl

theorem aquicksortArg_small (v : Nat → ℚ) (n : Nat) (h1 : 1 ≤ n) (h16 : n ≤ 16) :
    aquicksortArg v n = ainsertion v (List.range n) := by
  unfold aquicksortArg
  rw [if_neg (by omega)]
  obtain ⟨k, hk⟩ : ∃ k, (n + 2) * (n + 2) = k + 1 :=
    ⟨(n + 2) * (n + 2) - 1,
      (Nat.succ_pred_eq_of_pos (Nat.mul_pos (by omega) (by omega))).symm⟩
  rw [hk]
  show qsLoop v (k + 1) [] (List.range n) 0 (n - 1) (2 * (Nat.log2 n : Int)) = _
  unfold qsLoop
  rw [if_neg (by omega)]
  show sortSeg v (List.range n) 0 (n - 1) = _
  unfold sortSeg
  have hlen : (List.range n).length = n := List.length_range n
  rw [List.take_zero, List.drop_zero]
  rw [show n - 1 + 1 - 0 = n by omega, show n - 1 + 1 = n by omega]
  rw [List.take_of_length_le (by omega), List.drop_eq_nil_of_le (by omega)]
  simp

theorem revGetD (l : List ℚ) (i : Nat) (h : i < l.length) (d : ℚ) :
    l.reverse.getD i d = l.getD (l.length - 1 - i) d := by
  rw [List.getD_eq_getElem?_getD, List.getD_eq_getElem?_getD, List.getElem?_reverse h]

theorem map_sub_range (n : Nat) :
    (List.range n).map (fun k => n - 1 - k) = (List.range n).reverse := by
  conv_rhs => rw [List.range_eq_range' n]
  rw [List.reverse_range']
  simp

theorem nargsortDesc_perm (vs : List ℚ) (h16 : vs.length ≤ 16) :
    List.Perm (nargsortDesc vs) (List.range vs.length) := by
  rcases Nat.eq_zero_or_pos vs.length with h0 | h1
  · simp [nargsortDesc, aquicksortArg, h0]
  · unfold nargsortDesc
    rw [aquicksortArg_small _ _ h1 h16]
    refine (List.reverse_perm _).trans ?_
    refine ((ainsertion_perm _ (List.range vs.length)).map _).trans ?_
    rw [map_sub_range]
    exact List.reverse_perm _

theorem nargsortDesc_sorted (vs : List ℚ) (h16 : vs.length ≤ 16) :
    (nargsortDesc vs).Pairwise (stableDescRel vs) := by
  rcases Nat.eq_zero_or_pos vs.length with h0 | h1
  · simp [nargsortDesc, aquicksortArg, h0]
  · unfold nargsortDesc
    rw [aquicksortArg_small _ _ h1 h16]
    set n := vs.length with hn
    set vrev : Nat → ℚ := fun k => vs.reverse.getD k 0 with hvrev
    have hpw : (ainsertion vrev (List.range n)).Pairwise (stAscRel vrev) :=
      ainsertion_pairwise vrev (List.range n) (List.pairwise_lt_range n)
    have hmem : ∀ x ∈ ainsertion vrev (List.range n), x < n := by
      intro x hx
      have := (ainsertion_perm vrev (List.range n)).mem_iff.mp hx
      exact List.mem_range.mp this
    rw [List.pairwise_reverse, List.pairwise_map]
    refine hpw.imp_of_mem ?_
    intro p q hp hq hrel
    have hpn : p < n := hmem p hp
    have hqn : q < n := hmem q hq
    have hvp : vrev p = vs.getD (n - 1 - p) 0 := revGetD vs p hpn 0
    have hvq : vrev q = vs.getD (n - 1 - q) 0 := revGetD vs q hqn 0
    rcases hrel with h | ⟨h, h'⟩
    · exact Or.inl (by rw [← hvp, ← hvq]; exact h)
    · exact Or.inr ⟨by rw [← hvp, ← hvq]; exact h.symm, by omega⟩

/-- For at most 16 values, pandas' descending quicksort argsort agrees with
the spec-side stable descending sort (the quicksort never partitions: it is
its stable insertion-sort tail). -/
theorem nargsortDesc_eq_spec (vs : List ℚ) (h16 : vs.length ≤ 16) :
    nargsortDesc vs = stableDescSortSpec vs :=
  List.eq_of_perm_of_sorted
    ((nargsortDesc_perm vs h16).trans (List.perm_insertionSort _ _).symm)
    (nargsortDesc_sorted vs h16)
    (List.sorted_insertionSort _ _)


/-! ## Lemmas: engine helpers -/


theorem getD_map_of_lt {α β : Type} (l : List α) (f : α → β) (d : α) (d' : β)
    (i : Nat) (h : i < l.length) : (l.map f).getD i d' = f (l.getD i d) := by
  rw [List.getD_eq_getElem?_getD, List.getD_eq_getElem?_getD, List.getElem?_map,
    List.getElem?_eq_getElem h]
  simp

theorem map_getD_range {α : Type} (l : List α) (d : α) :
    (List.range l.length).map (fun i => l.getD i d) = l := by
  apply List.ext_getElem
  · simp
  · intro i h1 h2
    have hi : i < l.length := by simpa using h2
    simp only [List.getElem_map, List.getElem_range]
    rw [List.getD_eq_getElem?_getD, List.getElem?_eq_getElem hi]
    rfl

theorem count_three_split_or (rows : List Row) :
    (rows.filter (fun r => r.stress_zone = "Low Stress")).length +
      (rows.filter (fun r => r.stress_zone = "Medium Stress")).length +
      (rows.filter (fun r => r.stress_zone = "High Stress")).length =
      (rows.filter (fun r =>
        r.stress_zone = "Low Stress" ∨ r.stress_zone = "Medium Stress" ∨
          r.stress_zone = "High Stress")).length := by
  induction rows with
  | nil => rfl
  | cons r rs ih =>
    simp only [List.filter_cons]
    by_cases h1 : r.stress_zone = "Low Stress"
    · have h2 : ¬ r.stress_zone = "Medium Stress" := by rw [h1]; decide
      have h3 : ¬ r.stress_zone = "High Stress" := by rw [h1]; decide
      simp [h1, h2, h3] at ih ⊢
      omega
    · by_cases h2 : r.stress_zone = "Medium Stress"
      · have h3 : ¬ r.stress_zone = "High Stress" := by rw [h2]; decide
        simp [h1, h2, h3] at ih ⊢
        omega
      · by_cases h3 : r.stress_zone = "High Stress"
        · simp [h1, h2, h3] at ih ⊢
          omega
        · simp [h1, h2, h3] at ih ⊢
          omega

theorem filter_scatter_eq (rows : List Row) :
    rows.filter (fun r => r.stress_zone ∈ scatterZones) =
      rows.filter (fun r =>
        r.stress_zone = "Low Stress" ∨ r.stress_zone = "Medium Stress" ∨
          r.stress_zone = "High Stress") := by
  induction rows with
  | nil => rfl
  | cons r rs ih =>
    simp only [List.filter_cons]
    have : (decide (r.stress_zone ∈ scatterZones)) =
        (decide (r.stress_zone = "Low Stress" ∨ r.stress_zone = "Medium Stress" ∨
          r.stress_zone = "High Stress")) := by
      simp [scatterZones]
    rw [this, ih]

/-- The three zone filters partition the rows whose `stress_zone` is one of
the three known labels. -/
theorem count_three_split (rows : List Row) :
    (rows.filter (fun r => r.stress_zone = "Low Stress")).length +
      (rows.filter (fun r => r.stress_zone = "Medium Stress")).length +
      (rows.filter (fun r => r.stress_zone = "High Stress")).length =
      (rows.filter (fun r => r.stress_zone ∈ scatterZones)).length := by
  rw [filter_scatter_eq]
  exact count_three_split_or rows

/-- Sortedness of `valueCountsP` for at most 16 distinct keys (the
insertion path of the quicksort): counts appear in descending order. -/
theorem valueCountsP_sorted (df : DFrame) (keyOrder : List String)
    (h16 : keyOrder.length ≤ 16) :
    (valueCountsP df keyOrder).Pairwise (fun p q => q.2 ≤ p.2) := by
  unfold valueCountsP
  set pairs := countsFor df keyOrder with hpairs
  set cs := pairs.map (fun p => (p.2 : ℚ)) with hcs
  have hlen : cs.length = keyOrder.length := by
    rw [hcs, List.length_map, hpairs]
    exact List.length_map _ _
  have hsorted : (nargsortDesc cs).Pairwise (stableDescRel cs) :=
    nargsortDesc_sorted cs (by omega)
  have hmemn : ∀ x ∈ nargsortDesc cs, x < cs.length := by
    intro x hx
    exact List.mem_range.mp ((nargsortDesc_perm cs (by omega)).mem_iff.mp hx)
  rw [List.pairwise_map]
  refine hsorted.imp_of_mem ?_
  intro i j hi hj hrel
  have hin : i < pairs.length := by
    have := hmemn i hi
    rwa [hcs, List.length_map] at this
  have hjn : j < pairs.length := by
    have := hmemn j hj
    rwa [hcs, List.length_map] at this
  have hvi : cs.getD i 0 = ((pairs.getD i ("", 0)).2 : ℚ) :=
    getD_map_of_lt pairs _ ("", 0) 0 i hin
  have hvj : cs.getD j 0 = ((pairs.getD j ("", 0)).2 : ℚ) :=
    getD_map_of_lt pairs _ ("", 0) 0 j hjn
  rcases hrel with h | ⟨h, _⟩
  · exact_mod_cast le_of_lt (by rw [hvi, hvj] at h; exact_mod_cast h)
  · exact le_of_eq (by rw [hvi, hvj] at h; exact_mod_cast h.symm)

/-- `valueCountsP` is a permutation of the per-key count table. -/
theorem valueCountsP_perm (df : DFrame) (keyOrder : List String)
    (h16 : keyOrder.length ≤ 16) :
    List.Perm (valueCountsP df keyOrder) (countsFor df keyOrder) := by
  unfold valueCountsP
  set pairs := countsFor df keyOrder with hpairs
  set cs := pairs.map (fun p => (p.2 : ℚ)) with hcs
  have hlen : cs.length = pairs.length := List.length_map _ _
  have hlen2 : cs.length = keyOrder.length := by
    rw [hlen, hpairs]; exact List.length_map _ _
  have hperm : List.Perm (nargsortDesc cs) (List.range pairs.length) := by
    have := nargsortDesc_perm cs (by omega)
    rwa [hlen] at this
  have h1 : List.Perm ((nargsortDesc cs).map fun i => pairs.getD i ("", 0))
      ((List.range pairs.length).map fun i => pairs.getD i ("", 0)) :=
    hperm.map _
  rwa [map_getD_range pairs ("", 0)] at h1

/-! ## Loader lemmas -/

theorem aliasLat_val_ne (T : RawTable) (i : Nat) (c : String) (hc : c ≠ "lat") :
    (aliasLat T).val i c = T.val i c := by
  unfold aliasLat
  split
  · simp [hc]
  · rfl

theorem aliasLat_val_lat (T : RawTable) (i : Nat) (h : "latitude" ∈ T.cols) :
    (aliasLat T).val i "lat" = T.val i "latitude" := by
  unfold aliasLat
  rw [if_pos h]
  simp

theorem aliasLat_val_noLatitude (T : RawTable) (i : Nat) (c : String)
    (h : "latitude" ∉ T.cols) : (aliasLat T).val i c = T.val i c := by
  unfold aliasLat
  rw [if_neg h]

theorem aliasLat_mem (T : RawTable) (c : String) (hc : c ≠ "lat") :
    c ∈ (aliasLat T).cols ↔ c ∈ T.cols := by
  unfold aliasLat addCol
  split
  · split
    · exact Iff.rfl
    · simp [hc]
  · exact Iff.rfl

theorem aliasLon_val_ne (T : RawTable) (i : Nat) (c : String) (hc : c ≠ "lon") :
    (aliasLon T).val i c = T.val i c := by
  unfold aliasLon
  split
  · simp [hc]
  · rfl

theorem aliasLon_val_lon (T : RawTable) (i : Nat) (h : "longitude" ∈ T.cols) :
    (aliasLon T).val i "lon" = T.val i "longitude" := by
  unfold aliasLon
  rw [if_pos h]
  simp

theorem aliasLon_val_noLongitude (T : RawTable) (i : Nat) (c : String)
    (h : "longitude" ∉ T.cols) : (aliasLon T).val i c = T.val i c := by
  unfold aliasLon
  rw [if_neg h]

theorem aliasLon_mem (T : RawTable) (c : String) (hc : c ≠ "lon") :
    c ∈ (aliasLon T).cols ↔ c ∈ T.cols := by
  unfold aliasLon addCol
  split
  · split
    · exact Iff.rfl
    · simp [hc]
  · exact Iff.rfl

theorem defaultPopulation_val_present (T : RawTable) (i : Nat)
    (h : "population" ∈ T.cols) :
    (defaultPopulation T).val i "population" = T.val i "population" := by
  unfold defaultPopulation
  rw [if_pos h]

theorem defaultPopulation_val_absent (T : RawTable) (i : Nat)
    (h : "population" ∉ T.cols) :
    (defaultPopulation T).val i "population" = 50000 := by
  unfold defaultPopulation
  rw [if_neg h]
  simp

theorem defaultPopulation_val_ne (T : RawTable) (i : Nat) (c : String)
    (hc : c ≠ "population") : (defaultPopulation T).val i c = T.val i c := by
  unfold defaultPopulation
  split
  · rfl
  · simp [hc]

theorem defaultPopulation_mem (T : RawTable) (c : String) (hc : c ≠ "population") :
    c ∈ (defaultPopulation T).cols ↔ c ∈ T.cols := by
  unfold defaultPopulation addCol
  split
  · exact Iff.rfl
  · simp [hc]

theorem defaultBudget_val_present (T : RawTable) (i : Nat)
    (h : "total_budget" ∈ T.cols) :
    (defaultBudget T).val i "total_budget" = T.val i "total_budget" := by
  unfold defaultBudget
  rw [if_pos h]

theorem defaultBudget_val_absent (T : RawTable) (i : Nat)
    (h : "total_budget" ∉ T.cols) :
    (defaultBudget T).val i "total_budget" = 100000000 := by
  unfold defaultBudget
  rw [if_neg h]
  simp

theorem defaultBudget_val_ne (T : RawTable) (i : Nat) (c : String)
    (hc : c ≠ "total_budget") : (defaultBudget T).val i c = T.val i c := by
  unfold defaultBudget
  split
  · rfl
  · simp [hc]

/-! ## Claim theorems -/

/-- C7 (counterexample): a raw table with both a `lat` and a `latitude`
column.  The load overwrites the existing `lat` values with the `latitude`
values, so they are not "left unchanged". -/
theorem c7_counterexample :
    "lat" ∈ rawBoth.cols ∧ rawBoth.val 0 "lat" = 1 ∧
    (loadNorm rawBoth).val 0 "lat" = 2 ∧ (loadNorm rawBoth).val 0 "lat" ≠ rawBoth.val 0 "lat" :=
  ⟨by decide, by decide, by decide, by decide⟩

/-- C7 (amended): the loader copies `latitude` into `lat` whenever a
`latitude` column exists — also when a `lat` column already exists, whose
values are then overwritten; `lat` values are left unchanged exactly when
no `latitude` column exists (same for `longitude`/`lon`). -/
theorem c7_theorem (T : RawTable) (i : Nat) :
    ("latitude" ∈ T.cols → (loadNorm T).val i "lat" = T.val i "latitude") ∧
    ("latitude" ∉ T.cols → (loadNorm T).val i "lat" = T.val i "lat") ∧
    ("longitude" ∈ T.cols → (loadNorm T).val i "lon" = T.val i "longitude") ∧
    ("longitude" ∉ T.cols → (loadNorm T).val i "lon" = T.val i "lon") := by
  unfold loadNorm
  refine ⟨?_, ?_, ?_, ?_⟩
  · intro h
    rw [defaultBudget_val_ne _ i "lat" (by decide),
      defaultPopulation_val_ne _ i "lat" (by decide),
      aliasLon_val_ne _ i "lat" (by decide), aliasLat_val_lat T i h]
  · intro h
    rw [defaultBudget_val_ne _ i "lat" (by decide),
      defaultPopulation_val_ne _ i "lat" (by decide),
      aliasLon_val_ne _ i "lat" (by decide), aliasLat_val_noLatitude T i "lat" h]
  · intro h
    have h2 : "longitude" ∈ (aliasLat T).cols := (aliasLat_mem T "longitude" (by decide)).mpr h
    rw [defaultBudget_val_ne _ i "lon" (by decide),
      defaultPopulation_val_ne _ i "lon" (by decide),
      aliasLon_val_lon (aliasLat T) i h2, aliasLat_val_ne T i "longitude" (by decide)]
  · intro h
    have h2 : "longitude" ∉ (aliasLat T).cols :=
      fun hx => h ((aliasLat_mem T "longitude" (by decide)).mp hx)
    rw [defaultBudget_val_ne _ i "lon" (by decide),
      defaultPopulation_val_ne _ i "lon" (by decide),
      aliasLon_val_noLongitude _ i "lon" h2, aliasLat_val_ne T i "lon" (by decide)]

/-- C7 (witness): with only `latitude` present the values are copied into
`lat`; with no `latitude` column an existing `lat` is untouched. -/
theorem c7_witness :
    (loadNorm rawLatOnly).val 0 "lat" = 3 ∧ (loadNorm rawNoLatitude).val 0 "lat" = 4 := by
  constructor
  · have h := (c7_theorem rawLatOnly 0).1 (by decide)
    rw [h]
    decide
  · have h := (c7_theorem rawNoLatitude 0).2.1 (by decide)
    rw [h]
    decide

/-- C8: column defaulting is all-or-nothing per column: a present
`population` column is read through unchanged on every row, an absent one
makes every row read exactly 50000; likewise `total_budget` with
100000000. -/
theorem c8_theorem (T : RawTable) (i : Nat) :
    ("population" ∈ T.cols → (loadNorm T).val i "population" = T.val i "population") ∧
    ("population" ∉ T.cols → (loadNorm T).val i "population" = 50000) ∧
    ("total_budget" ∈ T.cols → (loadNorm T).val i "total_budget" = T.val i "total_budget") ∧
    ("total_budget" ∉ T.cols → (loadNorm T).val i "total_budget" = 100000000) := by
  unfold loadNorm
  have hmemP : "population" ∈ (aliasLon (aliasLat T)).cols ↔ "population" ∈ T.cols := by
    rw [aliasLon_mem _ _ (by decide), aliasLat_mem _ _ (by decide)]
  have hmemB0 : "total_budget" ∈ (aliasLon (aliasLat T)).cols ↔ "total_budget" ∈ T.cols := by
    rw [aliasLon_mem _ _ (by decide), aliasLat_mem _ _ (by decide)]
  have hmemB : "total_budget" ∈ (defaultPopulation (aliasLon (aliasLat T))).cols ↔
      "total_budget" ∈ T.cols := by
    rw [defaultPopulation_mem _ _ (by decide)]
    exact hmemB0
  refine ⟨?_, ?_, ?_, ?_⟩
  · intro h
    rw [defaultBudget_val_ne _ i _ (by decide),
      defaultPopulation_val_present _ i (hmemP.mpr h),
      aliasLon_val_ne _ i _ (by decide), aliasLat_val_ne _ i _ (by decide)]
  · intro h
    rw [defaultBudget_val_ne _ i _ (by decide),
      defaultPopulation_val_absent _ i (fun hx => h (hmemP.mp hx))]
  · intro h
    rw [defaultBudget_val_present _ i (hmemB.mpr h),
      defaultPopulation_val_ne _ i _ (by decide),
      aliasLon_val_ne _ i _ (by decide), aliasLat_val_ne _ i _ (by decide)]
  · intro h
    rw [defaultBudget_val_absent _ i (fun hx => h (hmemB.mp hx))]

/-- C8 (witness): a table without `population`/`total_budget` gets the
defaults on row 0; a table with both keeps its own values. -/
theorem c8_witness :
    (loadNorm rawPopAbsent).val 0 "population" = 50000 ∧
    (loadNorm rawPopAbsent).val 0 "total_budget" = 100000000 ∧
    (loadNorm rawPopPresent).val 0 "population" = 7 ∧
    (loadNorm rawPopPresent).val 0 "total_budget" = 9 := by
  refine ⟨(c8_theorem rawPopAbsent 0).2.1 (by decide),
    (c8_theorem rawPopAbsent 0).2.2.2 (by decide), ?_, ?_⟩
  · have h := (c8_theorem rawPopPresent 0).1 (by decide)
    rw [h]
    decide
  · have h := (c8_theorem rawPopPresent 0).2.2.1 (by decide)
    rw [h]
    decide

/-- C1 (counterexample): a loaded frame without a `stress_zone` column
makes the overview computation raise, and the endpoint answers 500, not
200. -/
theorem c1_counterexample :
    (overviewResp (some dfMissing)).1 ≠ 200 ∧ (overviewResp (some dfMissing)).1 = 500 :=
  ⟨by decide, by decide⟩

/-- C1 (amended): wards, insights, faq and map answer 200 in every dataset
state (including internal failures, which they swallow into empty/error
payloads), and overview, stress-distribution and pm25-green answer 200
except when their computation raises, in which case they answer 500 with
an error-annotated payload. -/
theorem c1_theorem (d : Option DFrame) :
    (wardsResp d).1 = 200 ∧ (insightsResp d).1 = 200 ∧ (mapResp d).1 = 200 ∧
    faqResp.1 = 200 ∧
    (overviewResp d).1 = (if overviewFails d then 500 else 200) ∧
    (stressResp d).1 = (if stressFails d then 500 else 200) ∧
    (pm25Resp d).1 = (if pm25Fails d then 500 else 200) := by
  rcases d with _ | df
  · exact ⟨rfl, rfl, rfl, rfl, rfl, rfl, rfl⟩
  · refine ⟨?_, ?_, ?_, rfl, ?_, ?_, ?_⟩
    · cases h : wardsCompute df <;> simp [wardsResp, h]
    · cases h : insightsCompute df <;> simp [insightsResp, h]
    · cases h : mapCompute df <;> simp [mapResp, h]
    · cases h : overviewCompute df <;> simp [overviewResp, overviewFails, h]
    · cases h : stressCompute df (firstSeen (df.rows.map (fun r => r.stress_zone))) with
      | error e => simp [stressResp, stressFails, h]
      | ok val =>
        obtain ⟨ls, vs, cs⟩ := val
        simp [stressResp, stressFails, h]
    · cases h : pm25Compute df <;> simp [pm25Resp, pm25Fails, h]

/-- C2 (counterexample): on the EmptyDataset sentinel (`df is None`) the
insights endpoint answers an empty list — zero cards, not five. -/
theorem c2_counterexample :
    (insightsResp none).2 = ([] : List Card) ∧ (insightsResp none).2.length ≠ 5 :=
  ⟨rfl, by decide⟩

/-- C2 (amended): for every loaded dataset with at least one row and the
accessed columns present, insights returns exactly the five cards in the
fixed order Critical Zones, Pollution Hotspot, Green Cover Gap,
Population at Risk, Budget Strategy; on EmptyDataset, on a zero-row
dataset (a ZeroDivisionError in the first card) and on any other internal
failure it degrades to an empty list instead. -/
theorem c2_theorem (df : DFrame)
    (hs : "stress_zone" ∈ df.cols) (hp : "pm25" ∈ df.cols) (hg : "green_cover" ∈ df.cols)
    (hr : df.rows ≠ []) :
    (insightsResp (some df)).1 = 200 ∧
    (insightsResp (some df)).2.map (fun c => (c.ctype, c.title)) =
      [("critical", "Critical Zones"), ("pollution", "Pollution Hotspot"),
       ("green", "Green Cover Gap"), ("population", "Population at Risk"),
       ("budget", "Budget Strategy")] := by
  have htot : ¬ df.rows.length = 0 := fun h => hr (List.length_eq_zero.mp h)
  obtain ⟨cards, hcomp, hmap⟩ : ∃ cards, insightsCompute df = Except.ok cards ∧
      cards.map (fun c => (c.ctype, c.title)) =
        [("critical", "Critical Zones"), ("pollution", "Pollution Hotspot"),
         ("green", "Green Cover Gap"), ("population", "Population at Risk"),
         ("budget", "Budget Strategy")] := by
    unfold insightsCompute
    rw [if_pos hs, if_neg htot, if_pos hp, if_pos hg]
    exact ⟨_, rfl, rfl⟩
  constructor
  · simp [insightsResp, hcomp]
  · simp [insightsResp, hcomp, hmap]

/-- C2 (witness): the spec's own two-ward scenario produces the five cards
in order. -/
theorem c2_witness :
    (insightsResp (some dfIns)).2.map (fun c => (c.ctype, c.title)) =
      [("critical", "Critical Zones"), ("pollution", "Pollution Hotspot"),
       ("green", "Green Cover Gap"), ("population", "Population at Risk"),
       ("budget", "Budget Strategy")] :=
  (c2_theorem dfIns (by decide) (by decide) (by decide) (by decide)).2

/-- C9: every map marker's radius is the clamp `max(8, min(25, 5 + esi*20))`
of its row's esi, hence always within [8, 25] — also for esi outside
[0, 1]; and the marker list is one marker per row. -/
theorem c9_theorem (df : DFrame)
    (h1 : "stress_zone" ∈ df.cols) (h2 : "esi" ∈ df.cols) (h3 : "ward" ∈ df.cols)
    (h4 : "lat" ∈ df.cols) (h5 : "lon" ∈ df.cols) (h6 : "pm25" ∈ df.cols)
    (h7 : "heat" ∈ df.cols) (h8 : "green_cover" ∈ df.cols) (h9 : "pop_density" ∈ df.cols) :
    mapCompute df = Except.ok (df.rows.map markerOf) ∧
    ∀ r ∈ df.rows,
      (markerOf r).radius = max 8 (min 25 (5 + r.esi * 20)) ∧
      8 ≤ (markerOf r).radius ∧ (markerOf r).radius ≤ 25 := by
  constructor
  · unfold mapCompute
    by_cases he : df.rows.isEmpty = true
    · rw [if_pos he]
      rw [List.isEmpty_iff.mp he]
      rfl
    · rw [if_neg he, if_pos h1, if_pos h2, if_pos h3, if_pos h4, if_pos h5, if_pos h6,
        if_pos h7, if_pos h8, if_pos h9]
  · intro r _
    refine ⟨rfl, le_max_left _ _, max_le (by norm_num) (min_le_left _ _)⟩

/-- C9 (witness): a ward with esi = 5 (far outside [0,1]) still gets a
radius inside [8, 25]. -/
theorem c9_witness :
    8 ≤ (markerOf (mkRow "big" 5 "High Stress" 10)).radius ∧
    (markerOf (mkRow "big" 5 "High Stress" 10)).radius ≤ 25 := by
  have h := (c9_theorem dfEsi5 (by decide) (by decide) (by decide) (by decide) (by decide)
    (by decide) (by decide) (by decide) (by decide)).2 (mkRow "big" 5 "High Stress" 10)
    (by decide)
  exact ⟨h.2.1, h.2.2⟩

/-- C3 (counterexample): 17 rows with identical `esi`.  A stable sort
would return them in their original order; pandas' default quicksort (17
exceeds the 16-element insertion-sort cutoff, so one partition runs)
returns them reordered. -/
theorem c3_counterexample :
    df17.rows.all (fun r => r.esi == 1) = true ∧
    wardsCompute df17 ≠ Except.ok (df17.rows.map projWard) :=
  ⟨by decide, by decide⟩

/-- C3 (amended): for every dataset with 2 to 16 rows the ward table is
sorted by `esi` descending with ties in original relative order (numpy
runs its stable insertion sort below the `SMALL_QUICKSORT` cutoff); for
larger datasets the quicksort partition can reorder ties, so stability is
not guaranteed. -/
theorem c3_theorem (df : DFrame)
    (h1 : "ward" ∈ df.cols) (h2 : "pm25" ∈ df.cols) (h3 : "heat" ∈ df.cols)
    (h4 : "pop_density" ∈ df.cols) (h5 : "green_cover" ∈ df.cols)
    (h6 : "esi" ∈ df.cols) (h7 : "stress_zone" ∈ df.cols)
    (hlen2 : 2 ≤ df.rows.length) (hlen16 : df.rows.length ≤ 16) :
    wardsCompute df = Except.ok (wardTableSpecOf df) ∧
    (wardTableSpecOf df).Pairwise (fun a b => b.esi ≤ a.esi) := by
  have hlen : (df.rows.map (fun r => r.esi)).length = df.rows.length := List.length_map _ _
  constructor
  · unfold wardsCompute
    rw [if_pos h1, if_pos h2, if_pos h3, if_pos h4, if_pos h5, if_pos h6, if_pos h7]
    rw [nargsortDesc_eq_spec _ (by omega)]
    rfl
  · unfold wardTableSpecOf stableDescSortSpec
    rw [List.pairwise_map]
    have hs := List.sorted_insertionSort (stableDescRel (df.rows.map (fun r => r.esi)))
      (List.range (df.rows.map (fun r => r.esi)).length)
    refine hs.imp_of_mem ?_
    intro i j hi hj hrel
    have hin : i < df.rows.length := by
      have := List.mem_range.mp ((List.mem_insertionSort _).mp hi)
      omega
    have hjn : j < df.rows.length := by
      have := List.mem_range.mp ((List.mem_insertionSort _).mp hj)
      omega
    have hpi : (df.rows.map (fun r => r.esi)).getD i 0 = (projWard (df.rows.getD i defRow)).esi := by
      rw [getD_map_of_lt df.rows (fun r => r.esi) defRow 0 i hin]
      rfl
    have hpj : (df.rows.map (fun r => r.esi)).getD j 0 = (projWard (df.rows.getD j defRow)).esi := by
      rw [getD_map_of_lt df.rows (fun r => r.esi) defRow 0 j hjn]
      rfl
    rcases hrel with h | ⟨h, _⟩
    · rw [hpi, hpj] at h
      exact le_of_lt h
    · rw [hpi, hpj] at h
      exact le_of_eq h.symm

/-- C3 (witness): three rows with esi 1, 2, 1 — the table comes back as
rows 1, 0, 2: descending by esi and the tied pair in original order. -/
theorem c3_witness :
    wardsCompute dfW3 =
      Except.ok (([1, 0, 2] : List Nat).map (fun i => projWard (dfW3.rows.getD i defRow))) := by
  have h := c3_theorem dfW3 (by decide) (by decide) (by decide) (by decide) (by decide)
    (by decide) (by decide) (by decide) (by decide)
  rw [h.1]
  decide

/-- C4 (counterexample): zones seen in order Low, High, High.  First-seen
order is [Low, High]; `value_counts` sorts by count descending, so the
payload order is [High, Low]. -/
theorem c4_counterexample :
    firstSeen (dfC4.rows.map (fun r => r.stress_zone)) = ["Low Stress", "High Stress"] ∧
    (valueCountsP dfC4 (firstSeen (dfC4.rows.map (fun r => r.stress_zone)))).map
        (fun p => p.1) = ["High Stress", "Low Stress"] ∧
    (valueCountsP dfC4 (firstSeen (dfC4.rows.map (fun r => r.stress_zone)))).map
        (fun p => p.1) ≠ firstSeen (dfC4.rows.map (fun r => r.stress_zone)) :=
  ⟨by decide, by decide, by decide⟩

/-- C4 (amended): for every dataset and every enumeration of its distinct
`stress_zone` values (pandas hands them to the sort in hash-table order)
with at most 16 distinct values, the (label, count) pairs of
stress_distribution are the per-zone group counts ordered by count
descending — not by first appearance. -/
theorem c4_theorem (df : DFrame) (keyOrder : List String)
    (hnd : keyOrder.Nodup)
    (hsub : ∀ z ∈ keyOrder, z ∈ df.rows.map (fun r => r.stress_zone))
    (hsup : ∀ z ∈ df.rows.map (fun r => r.stress_zone), z ∈ keyOrder)
    (h16 : keyOrder.length ≤ 16) :
    (valueCountsP df keyOrder).Pairwise (fun p q => q.2 ≤ p.2) ∧
    List.Perm (valueCountsP df keyOrder) (countsFor df keyOrder) :=
  ⟨valueCountsP_sorted df keyOrder h16, valueCountsP_perm df keyOrder h16⟩

/-- C4 (witness): on the Low, High, High dataset the pairs come back
count-descending. -/
theorem c4_witness :
    (valueCountsP dfC4 ["Low Stress", "High Stress"]).Pairwise (fun p q => q.2 ≤ p.2) :=
  (c4_theorem dfC4 ["Low Stress", "High Stress"] (by decide) (by decide) (by decide)
    (by decide)).1

/-- C5 (counterexample): zones Low, Low, High.  "Low Stress" has the top
count, so it is the first pie label and is paired with the first color
`#e74c3c` (red), not with green — the color mapping is positional, not by
label. -/
theorem c5_counterexample :
    (okD (stressCompute dfC5 (firstSeen (dfC5.rows.map (fun r => r.stress_zone))))
        ([], [], [])).1.zip
      (okD (stressCompute dfC5 (firstSeen (dfC5.rows.map (fun r => r.stress_zone))))
        ([], [], [])).2.2 =
      [("Low Stress", "#e74c3c"), ("High Stress", "#f39c12")] ∧
    ("#e74c3c" : String) ≠ "#2ecc71" :=
  ⟨by decide, by decide⟩

/-- C5 (amended): the pie payload always carries the fixed positional
color list [red, orange, green]; the labels are the distinct zones in
count-descending order, so a zone's color reflects its frequency rank
(High Stress is red exactly when it ranks first), not a fixed
label-to-color mapping. -/
theorem c5_theorem (df : DFrame) (keyOrder : List String)
    (hs : "stress_zone" ∈ df.cols)
    (hz : ∀ r ∈ df.rows, r.stress_zone ∈ scatterZones)
    (hsub : ∀ z ∈ keyOrder, z ∈ df.rows.map (fun r => r.stress_zone))
    (hnd : keyOrder.Nodup) :
    stressCompute df keyOrder =
      Except.ok ((valueCountsP df keyOrder).map (fun p => p.1),
        (valueCountsP df keyOrder).map (fun p => p.2), pieColors) ∧
    ((valueCountsP df keyOrder).map (fun p => p.2)).Pairwise (fun a b => b ≤ a) := by
  have h16 : keyOrder.length ≤ 16 := by
    have hsubset : ∀ z ∈ keyOrder, z ∈ scatterZones := by
      intro z hzk
      obtain ⟨r, hr, hrz⟩ := List.mem_map.mp (hsub z hzk)
      exact hrz ▸ hz r hr
    have e1 : keyOrder.toFinset.card = keyOrder.length := List.toFinset_card_of_nodup hnd
    have e2 : keyOrder.toFinset ⊆ scatterZones.toFinset := fun z hz2 =>
      List.mem_toFinset.mpr (hsubset z (List.mem_toFinset.mp hz2))
    have e3 := Finset.card_le_card e2
    have e4 : scatterZones.toFinset.card ≤ scatterZones.length := List.toFinset_card_le _
    have e5 : scatterZones.length = 3 := rfl
    omega
  constructor
  · unfold stressCompute
    rw [if_pos hs]
  · rw [List.pairwise_map]
    exact valueCountsP_sorted df keyOrder h16

/-- C5 (witness): one High and one Low ward — High ranks first and gets
red, and the color list is the fixed one. -/
theorem c5_witness :
    stressCompute dfIns ["High Stress", "Low Stress"] =
      Except.ok (["High Stress", "Low Stress"], [1, 1], pieColors) := by
  have h := c5_theorem dfIns ["High Stress", "Low Stress"] (by decide) (by decide)
    (by decide) (by decide)
  rw [h.1]
  decide

/-- C6 (counterexample): one row whose `stress_zone` is "Industrial".  It
is counted in `total_wards` but in none of the three zone counts, so
high + medium + low = 0 ≠ 1 = total_wards. -/
theorem c6_counterexample :
    overviewFails (some dfUnknown) = false ∧
    (okD (overviewCompute dfUnknown) defOv).total_wards = 1 ∧
    (okD (overviewCompute dfUnknown) defOv).high_stress_count +
      (okD (overviewCompute dfUnknown) defOv).medium_stress_count +
      (okD (overviewCompute dfUnknown) defOv).low_stress_count = 0 :=
  ⟨by decide, by decide, by decide⟩

/-- C6 (amended): whenever every row's `stress_zone` is one of the three
known labels, the overview satisfies high + medium + low = total_wards; a
row with any other label is counted in `total_wards` but in none of the
three counts. -/
theorem c6_theorem (df : DFrame)
    (hs : "stress_zone" ∈ df.cols) (hp : "pm25" ∈ df.cols) (he : "esi" ∈ df.cols)
    (hz : ∀ r ∈ df.rows, r.stress_zone ∈ scatterZones) :
    overviewCompute df = Except.ok
      { total_wards := df.rows.length
        high_stress_count := (df.rows.filter (fun r => r.stress_zone = "High Stress")).length
        medium_stress_count := (df.rows.filter (fun r => r.stress_zone = "Medium Stress")).length
        low_stress_count := (df.rows.filter (fun r => r.stress_zone = "Low Stress")).length
        avg_pm25 := round1 (meanQ (df.rows.map (fun r => r.pm25)))
        avg_esi := round3 (meanQ (df.rows.map (fun r => r.esi))) } ∧
    (df.rows.filter (fun r => r.stress_zone = "High Stress")).length +
      (df.rows.filter (fun r => r.stress_zone = "Medium Stress")).length +
      (df.rows.filter (fun r => r.stress_zone = "Low Stress")).length = df.rows.length := by
  constructor
  · unfold overviewCompute
    rw [if_pos hs, if_pos hp, if_pos he]
  · have h1 := count_three_split df.rows
    have h2 : df.rows.filter (fun r => r.stress_zone ∈ scatterZones) = df.rows := by
      rw [List.filter_eq_self]
      intro a ha
      simpa using hz a ha
    rw [h2] at h1
    omega

/-- C6 (witness): the spec's two-ward scenario — 1 + 0 + 1 = 2. -/
theorem c6_witness :
    (dfIns.rows.filter (fun r => r.stress_zone = "High Stress")).length +
      (dfIns.rows.filter (fun r => r.stress_zone = "Medium Stress")).length +
      (dfIns.rows.filter (fun r => r.stress_zone = "Low Stress")).length =
      dfIns.rows.length :=
  (c6_theorem dfIns (by decide) (by decide) (by decide) (by decide)).2

theorem buildSeries_ok (df : DFrame) (hg : "green_cover" ∈ df.cols)
    (hp : "pm25" ∈ df.cols) (hw : "ward" ∈ df.cols) :
    ∀ zs : List String, ∃ ls, buildSeries df zs = Except.ok ls ∧
      (ls.map (fun s => s.points.length)).sum =
        (zs.map (fun z => (df.rows.filter (fun r => r.stress_zone = z)).length)).sum
  | [] => ⟨[], rfl, rfl⟩
  | z :: zs => by
    obtain ⟨ls, ih1, ih2⟩ := buildSeries_ok df hg hp hw zs
    by_cases hz : (df.rows.filter (fun r => r.stress_zone = z)).isEmpty = true
    · refine ⟨ls, ?_, ?_⟩
      · unfold buildSeries
        rw [if_pos hz]
        exact ih1
      · have h0 : (df.rows.filter (fun r => r.stress_zone = z)).length = 0 := by
          rw [List.isEmpty_iff.mp hz]
          rfl
        simp only [List.map_cons, List.sum_cons, h0, Nat.zero_add]
        exact ih2
    · refine ⟨SeriesT.mk z ((df.rows.filter (fun r => r.stress_zone = z)).map
          (fun r => (r.green_cover * 100, r.pm25, r.ward))) :: ls, ?_, ?_⟩
      · unfold buildSeries
        rw [if_neg hz, if_pos hg, if_pos hp, if_pos hw, ih1]
      · simp only [List.map_cons, List.sum_cons, List.length_map]
        rw [ih2]

/-- C10: a row with an unrecognized `stress_zone` appears in no series of
pm25-green (the loop queries only the three known labels), yet it is
counted in overview's `total_wards`: the series point counts sum to the
number of known-zone rows, which is strictly below the row count. -/
theorem c10_theorem (df : DFrame)
    (hs : "stress_zone" ∈ df.cols) (hg : "green_cover" ∈ df.cols)
    (hp : "pm25" ∈ df.cols) (hw : "ward" ∈ df.cols) (he : "esi" ∈ df.cols)
    (r : Row) (hr : r ∈ df.rows) (hz : r.stress_zone ∉ scatterZones) :
    pm25Compute df = Except.ok (okD (pm25Compute df) []) ∧
    ((okD (pm25Compute df) []).map (fun s => s.points.length)).sum =
      (df.rows.filter (fun x => x.stress_zone ∈ scatterZones)).length ∧
    (df.rows.filter (fun x => x.stress_zone ∈ scatterZones)).length < df.rows.length ∧
    overviewCompute df = Except.ok (okD (overviewCompute df) defOv) ∧
    (okD (overviewCompute df) defOv).total_wards = df.rows.length := by
  obtain ⟨ls, h1, h2⟩ := buildSeries_ok df hg hp hw scatterZones
  have hpc : pm25Compute df = Except.ok ls := by
    unfold pm25Compute
    rw [if_pos hs]
    exact h1
  have hok : okD (pm25Compute df) [] = ls := by
    rw [hpc]
    rfl
  have hov : overviewCompute df = Except.ok
      { total_wards := df.rows.length
        high_stress_count := (df.rows.filter (fun r => r.stress_zone = "High Stress")).length
        medium_stress_count := (df.rows.filter (fun r => r.stress_zone = "Medium Stress")).length
        low_stress_count := (df.rows.filter (fun r => r.stress_zone = "Low Stress")).length
        avg_pm25 := round1 (meanQ (df.rows.map (fun r => r.pm25)))
        avg_esi := round3 (meanQ (df.rows.map (fun r => r.esi))) } := by
    unfold overviewCompute
    rw [if_pos hs, if_pos hp, if_pos he]
  refine ⟨by rw [hpc]; rfl, ?_, ?_, ?_, ?_⟩
  · rw [hok, h2]
    have h3 := count_three_split df.rows
    simp only [scatterZones, List.map_cons, List.map_nil, List.sum_cons, List.sum_nil] at h3 ⊢
    omega
  · refine List.length_filter_lt_length_iff_exists.mpr ⟨r, hr, ?_⟩
    simpa using hz
  · rw [hov]
    rfl
  · rw [hov]
    rfl

/-- C10 (witness): one Low Stress row and one "Industrial" row — one
scatter point in total, two wards in the overview. -/
theorem c10_witness :
    ((okD (pm25Compute dfMixed) []).map (fun s => s.points.length)).sum = 1 ∧
    (dfMixed.rows.filter (fun x => x.stress_zone ∈ scatterZones)).length <
      dfMixed.rows.length ∧
    (okD (overviewCompute dfMixed) defOv).total_wards = 2 := by
  have h := c10_theorem dfMixed (by decide) (by decide) (by decide) (by decide) (by decide)
    (mkRow "b" 1 "Industrial" 2) (by decide) (by decide)
  refine ⟨?_, h.2.2.1, ?_⟩
  · rw [h.2.1]
    decide
  · rw [h.2.2.2.2]
    decide

end EnvDash
